import Mathlib

/-!
Verification of `src/anki/latex.py` (the LaTeX tag rendering/caching pipeline).

The Python module is shallowly embedded: strings become `List Char`, the
process-wide mutable state touched by the module (current working directory,
files on disk, external tool invocations) becomes an explicit `World` value
threaded through the functions, and the two external tools plus the log file
become an oracle (`Tools`) giving the exit codes and log text as a function of
the `.tex` source that was written.  Exceptions (`assert`, I/O errors) become
`Except PyErr`.  Each definition mirrors one Python function of the source.
-/

namespace AnkiLatex

/-- Python strings are modelled as lists of characters. -/
abbrev Str := List Char

/-- Shorthand turning a Lean string literal into the `Str` model. -/
def lit (s : String) : Str := s.data

/-- ASCII lower-casing of one character, the character class used by
`re.IGNORECASE` on the patterns of this module (delimiters are ASCII). -/
def lowerChar (c : Char) : Char :=
  if 'A' ≤ c ∧ c ≤ 'Z' then Char.ofNat (c.toNat + 32) else c

/-- `startsWith t s` is true when `t` is a prefix of `s` (exact characters). -/
def startsWith : Str → Str → Bool
  | [], _ => true
  | _ :: _, [] => false
  | a :: ts, b :: ss => a == b && startsWith ts ss

/-- Case-insensitive prefix test, for the `re.IGNORECASE` delimiter matches. -/
def startsWithCI (t s : Str) : Bool :=
  startsWith (t.map lowerChar) (s.map lowerChar)

/-- `hasSubstr s t` models Python `t in s` (substring containment). -/
def hasSubstr : Str → Str → Bool
  | [], t => t.isEmpty
  | s@(_ :: cs), t => startsWith t s || hasSubstr cs t

/-- Fuelled worker for `replaceAll`; each step consumes at least one character
of `s`, so fuel `s.length` never runs out. -/
def replaceAllF : Nat → Str → Str → Str → Str
  | 0, s, _, _ => s
  | fuel+1, s, t, r =>
    match s with
    | [] => []
    | c :: cs =>
      if !t.isEmpty && startsWith t (c :: cs) then
        r ++ replaceAllF fuel (List.drop t.length (c :: cs)) t r
      else
        c :: replaceAllF fuel cs t r

/-- Python `s.replace(t, r)`: replace every (leftmost, non-overlapping)
occurrence of `t` in `s` by `r`.  (The callers of this module never pass an
empty `t`; for `t = []` this returns `s` unchanged.) -/
def replaceAll (s t r : Str) : Str := replaceAllF s.length s t r

/-- The character class of the entity regex `&([a-z]+);` under `re.IGNORECASE`. -/
def isAsciiLetter (c : Char) : Bool :=
  decide (('a' ≤ c ∧ c ≤ 'z') ∨ ('A' ≤ c ∧ c ≤ 'Z'))

/-- Fuelled worker for `entMatches`; every recursive call drops at least one
character, so fuel `s.length` never runs out. -/
def entMatchesF : Nat → Str → List (Str × Str)
  | 0, _ => []
  | fuel+1, s =>
    match s with
    | [] => []
    | c :: cs =>
      if c = '&' then
        let name := List.takeWhile isAsciiLetter cs
        match List.dropWhile isAsciiLetter cs with
        | d :: rs =>
          if d = ';' ∧ name ≠ [] then
            ('&' :: (name ++ [';']), name) :: entMatchesF fuel rs
          else
            entMatchesF fuel cs
        | [] => entMatchesF fuel cs
      else
        entMatchesF fuel cs

/-- The successive matches of `re.compile("&([a-z]+);", re.IGNORECASE)` over
`s` (Python `finditer` semantics: leftmost, non-overlapping), as pairs of
(whole match `&name;`, group 1 `name`). -/
def entMatches (s : Str) : List (Str × Str) := entMatchesF s.length s

/-- Modelled from the repository code outside `src/` and the Python 2 standard
library: a finite subset of `htmlentitydefs.entitydefs`, the table imported by
`src/anki/latex.py`.  In that table the value of an entity is the literal
character when its codepoint is at most 0xFF, and otherwise the decimal
numeric character reference `&#N;` (for example `alpha`, U+03B1, maps to the
six-character text `&#945;`).  Keys are case-sensitive as in the Python dict. -/
def entitydefs : List (Str × Str) :=
  [ (lit "amp", lit "&"), (lit "lt", lit "<"), (lit "gt", lit ">"),
    (lit "quot", lit "\""), (lit "nbsp", lit " "),
    (lit "eacute", lit "é"), (lit "times", lit "×"), (lit "szlig", lit "ß"),
    (lit "alpha", lit "&#945;"), (lit "hellip", lit "&#8230;"),
    (lit "euro", lit "&#8364;") ]

/-- The entity-substitution loop of `_latexFromHtml`: for every match of
`&([a-z]+);` found in the original string, if the name is in `entitydefs`,
replace all occurrences of the matched text by the table's value. -/
def entSub (latex : Str) : Str :=
  (entMatches latex).foldl
    (fun l m =>
      match List.lookup m.2 entitydefs with
      | some v => replaceAll l m.1 v
      | none => l)
    latex

/-- Fuelled worker for `brSub`. -/
def brSubF : Nat → Str → Str
  | 0, s => s
  | fuel+1, s =>
    match s with
    | [] => []
    | c :: cs =>
      if startsWith (lit "<br />") (c :: cs) then
        '\n' :: brSubF fuel (List.drop 6 (c :: cs))
      else if startsWith (lit "<br>") (c :: cs) then
        '\n' :: brSubF fuel (List.drop 4 (c :: cs))
      else
        c :: brSubF fuel cs

/-- `re.sub("<br( /)?>", "\n", s)`: replace `<br>` and `<br />` (case
sensitive, the pattern carries no IGNORECASE flag) by a newline. -/
def brSub (s : Str) : Str := brSubF s.length s

/-- The remainder after the first `>` of a tag body, if any. -/
def dropTag : Str → Option Str
  | [] => none
  | c :: cs => if c = '>' then some cs else dropTag cs

/-- Fuelled worker for `stripHTML`. -/
def stripHTMLF : Nat → Str → Str
  | 0, s => s
  | fuel+1, s =>
    match s with
    | [] => []
    | c :: cs =>
      if c = '<' then
        match dropTag cs with
        | some rest => stripHTMLF fuel rest
        | none => '<' :: stripHTMLF fuel cs
      else
        c :: stripHTMLF fuel cs

/-- Modelled from the spec: `anki.utils.stripHTML` (repository code not under
`src/`), described as "strip any remaining markup tags, yielding text only".
Every `<...>` region (shortest match) is removed; text outside tags, and a
`<` never followed by `>`, are kept. -/
def stripHTML (s : Str) : Str := stripHTMLF s.length s

/-- `_latexFromHtml(deck, latex)` of `src/anki/latex.py`: convert recognised
named entities, turn `<br>`/`<br />` into newlines, strip remaining markup. -/
def _latexFromHtml (latex : Str) : Str :=
  stripHTML (brSub (entSub latex))

/-- Python `cgi.escape(s)`:
`s.replace("&", "&amp;").replace("<", "&lt;").replace(">", "&gt;")`. -/
def cgiEscape (s : Str) : Str :=
  replaceAll (replaceAll (replaceAll s (lit "&") (lit "&amp;")) (lit "<") (lit "&lt;"))
    (lit ">") (lit "&gt;")

/-- Modelled from the spec: `anki.utils.checksum` (repository code not under
`src/`), the "deterministic digest of byte content used as a cache key".  It
is modelled as an injective textual digest of the character sequence (the
decimal code of each character followed by a separator); injectivity is the
idealisation of a collision-free cryptographic hash, and determinism is the
property the spec demands of it. -/
def checksum (s : Str) : Str :=
  s.foldr (fun c acc => Nat.toDigits 10 c.toNat ++ ('-' :: acc)) []

/-- The wrapping done at the top of `_buildImg`:
`model["latexPre"] + "\n" + latex + "\n" + model["latexPost"]`. -/
structure Model where
  latexPre : Str
  latexPost : Str
  deriving DecidableEq

/-- `wrapLatex m latex` is the fully wrapped source handed to the tools. -/
def wrapLatex (m : Model) (latex : Str) : Str :=
  m.latexPre ++ (lit "\n" ++ (latex ++ (lit "\n" ++ m.latexPost)))

/-- The deny-list tuple of `_buildImg`, checked by `assert bad not in latex`. -/
def denyList : List Str :=
  [lit "write18", lit "\\readline", lit "\\input", lit "\\include",
   lit "\\catcode", lit "\\openout", lit "\\write", lit "\\loop",
   lit "\\def", lit "\\shipout"]

/-- Python exceptions that can escape the modelled functions:
`AssertionError` from the deny-list `assert`, and an I/O error from
`shutil.copy2` (the store-write failure the spec's §7 mentions). -/
inductive PyErr where
  | assertionError
  | ioError
  deriving DecidableEq

/-- Observable external actions, in order: running `latex`, running `dvipng`,
copying the rendered image into the media directory. -/
inductive Event where
  | runLatex
  | runDvipng
  | copyMedia
  deriving DecidableEq

/-- The process-wide state the module touches: the current working directory,
the set of files on disk as (directory, filename) pairs, and the trace of
external actions performed so far. -/
structure World where
  cwd : Str
  files : List (Str × Str)
  events : List Event
  deriving DecidableEq

/-- Oracle for the external tools, keyed by the wrapped source written to
`tmp.tex`: exit code of `latex`, exit code of `dvipng`, whether the
`shutil.copy2` into the media directory succeeds, and what reading the
captured `latex_log.txt` yields afterwards (`none` = unreadable). -/
structure Tools where
  latexExit : Str → Int
  dvipngExit : Str → Int
  copyOk : Str → Bool
  logRead : Str → Option Str

/-- The fixed collaborators of one `mungeQA` run: the tool oracle, the deck's
media directory `deck.media.dir()`, the scratch directory `tmpdir()`, the
module-level `build` flag, and the model supplying preamble/postamble. -/
structure Env where
  tools : Tools
  mdir : Str
  tmpPath : Str
  build : Bool
  model : Model

/-- `_errMsg(type)` of `src/anki/latex.py`: a localized
"Error executing `type`." line (the default locale's `_` is the identity),
`<br>`, then the HTML-escaped log inside `<small><pre>`, or the fallback
guidance when the log is unreadable or empty. -/
def _errMsg (tools : Tools) (key ty : Str) : Str :=
  let msg := lit "Error executing " ++ ty ++ lit "." ++ lit "<br>"
  match tools.logRead key with
  | some lg =>
    if lg.isEmpty then msg ++ lit "Have you installed latex and dvipng?"
    else msg ++ lit "<small><pre>" ++ cgiEscape lg ++ lit "</pre></small>"
  | none => msg ++ lit "Have you installed latex and dvipng?"

/-- `_buildImg(deck, latex, fname, model)` of `src/anki/latex.py`.  The input
`latex` is the already-normalised source; it is wrapped with the model's
preamble/postamble, the deny-list `assert` runs (raising `AssertionError`
before any file is written or tool invoked), then under `try`/`finally` the
working directory is switched to the scratch directory, `latex` then `dvipng`
run (non-zero exit yields the `_errMsg` fragment), the image is copied into
the media directory (failure raises), and `finally` restores the old working
directory on every one of those exit paths. -/
def _buildImg (env : Env) (latex fname : Str) (w : World) :
    Except PyErr (Option Str) × World :=
  let wrapped := wrapLatex env.model latex
  if denyList.any (fun bad => hasSubstr wrapped bad) then
    (Except.error PyErr.assertionError, w)
  else
    let oldcwd := w.cwd
    let w1 : World := { w with cwd := env.tmpPath, events := w.events ++ [Event.runLatex] }
    if env.tools.latexExit wrapped ≠ 0 then
      (Except.ok (some (_errMsg env.tools wrapped (lit "latex"))), { w1 with cwd := oldcwd })
    else
      let w2 : World := { w1 with events := w1.events ++ [Event.runDvipng] }
      if env.tools.dvipngExit wrapped ≠ 0 then
        (Except.ok (some (_errMsg env.tools wrapped (lit "dvipng"))), { w2 with cwd := oldcwd })
      else if env.tools.copyOk wrapped then
        (Except.ok none,
         { w2 with cwd := oldcwd, files := w2.files ++ [(env.mdir, fname)],
                   events := w2.events ++ [Event.copyMedia] })
      else
        (Except.error PyErr.ioError, { w2 with cwd := oldcwd })

/-- The filename `_imgLink` derives: `"latex-%s.png" % checksum(txt)` applied
to the normalised source of `latex`. -/
def fnameOf (latex : Str) : Str :=
  lit "latex-" ++ checksum (_latexFromHtml latex) ++ lit ".png"

/-- The image link `_imgLink` substitutes: `'<img src="%s">' % fname`. -/
def linkOf (latex : Str) : Str :=
  lit "<img src=\"" ++ fnameOf latex ++ lit "\">"

/-- `_imgLink(deck, latex, model)` of `src/anki/latex.py`: normalise, derive
the cache filename, and return the link on `os.path.exists(fname)` (a
relative path, hence resolved against the current working directory); with
the `build` flag off return `"[latex]%s[/latex]" % latex`; otherwise build,
returning the error fragment on failure and the link on success. -/
def _imgLink (env : Env) (latex : Str) (w : World) : Except PyErr Str × World :=
  let txt := _latexFromHtml latex
  let fname := lit "latex-" ++ checksum txt ++ lit ".png"
  let link := lit "<img src=\"" ++ fname ++ lit "\">"
  if (w.cwd, fname) ∈ w.files then
    (Except.ok link, w)
  else if env.build = false then
    (Except.ok (lit "[latex]" ++ latex ++ lit "[/latex]"), w)
  else
    match _buildImg env txt fname w with
    | (Except.error e, w1) => (Except.error e, w1)
    | (Except.ok (some err), w1) => (Except.ok err, w1)
    | (Except.ok none, w1) => (Except.ok link, w1)

/-- One regex match of a tag pattern: full matched span and group 1. -/
structure TagMatch where
  full : Str
  inner : Str
  deriving DecidableEq

/-- The lazy body of `OPEN(.+?)CLOSE`: the shortest body of at least one
character after which `close` matches case-insensitively; returns the body
and the remainder after the closing delimiter. -/
def findBody (close : Str) : Str → Option (Str × Str)
  | [] => none
  | c :: cs =>
    if startsWithCI close cs then
      some ([c], List.drop close.length cs)
    else
      match findBody close cs with
      | some (b, r) => some (c :: b, r)
      | none => none

/-- Fuelled worker for `scanTags`; every recursive call drops at least one
character of `s`, so fuel `s.length` never runs out. -/
def scanTagsF : Nat → Str → Str → Str → List TagMatch
  | 0, _, _, _ => []
  | fuel+1, opn, close, s =>
    match s with
    | [] => []
    | c :: cs =>
      if startsWithCI opn (c :: cs) then
        match findBody close (List.drop opn.length (c :: cs)) with
        | some (b, r) =>
          { full := List.take (opn.length + (b.length + close.length)) (c :: cs),
            inner := b } :: scanTagsF fuel opn close r
        | none => scanTagsF fuel opn close cs
      else
        scanTagsF fuel opn close cs

/-- `finditer` of a pattern `OPEN(.+?)CLOSE` compiled with
`re.DOTALL | re.IGNORECASE` (the three entries of `regexps`): leftmost,
non-overlapping matches with a lazy body of at least one character. -/
def scanTags (opn close s : Str) : List TagMatch := scanTagsF s.length opn close s

/-- One `for match in ...finditer(html): html = html.replace(...)` loop of
`mungeQA`: the matches come from the html the loop started with, each match's
body is wrapped by the kind-specific `wrapB`, `_imgLink` is invoked (its
exception aborting the whole loop), and every textual occurrence of the
matched span in the current html is replaced by the result. -/
def processMatches (env : Env) (wrapB : Str → Str) :
    List TagMatch → Str → World → Except PyErr Str × World
  | [], html, w => (Except.ok html, w)
  | m :: ms, html, w =>
    match _imgLink env (wrapB m.inner) w with
    | (Except.error e, w1) => (Except.error e, w1)
    | (Except.ok res, w1) => processMatches env wrapB ms (replaceAll html m.full res) w1

/-- `mungeQA(html, type, fields, model, data, deck)` of `src/anki/latex.py`:
process the `standard` tags, then the `expression` tags (body wrapped as
`$body$`), then the `math` tags (body wrapped in a `displaymath`
environment), each by the replace-all loop above. -/
def mungeQA (env : Env) (html : Str) (w : World) : Except PyErr Str × World :=
  match processMatches env (fun b => b)
      (scanTags (lit "[latex]") (lit "[/latex]") html) html w with
  | (Except.error e, w1) => (Except.error e, w1)
  | (Except.ok h1, w1) =>
    match processMatches env (fun b => '$' :: (b ++ ['$']))
        (scanTags (lit "[$]") (lit "[/$]") h1) h1 w1 with
    | (Except.error e, w2) => (Except.error e, w2)
    | (Except.ok h2, w2) =>
      processMatches env (fun b => lit "\\begin{displaymath}" ++ (b ++ lit "\\end{displaymath}"))
        (scanTags (lit "[$$]") (lit "[/$$]") h2) h2 w2

/-- The spec's description of the rewriter (§4.1, §4.7): the tag kinds with
their delimiters and body wrappers, listed in the spec's fixed priority order
Raw, InlineExpr, DisplayMath. -/
def kindOrder : List (Str × Str × (Str → Str)) :=
  [ (lit "[latex]", lit "[/latex]", fun b => b),
    (lit "[$]", lit "[/$]", fun b => '$' :: (b ++ ['$'])),
    (lit "[$$]", lit "[/$$]", fun b => lit "\\begin{displaymath}" ++ (b ++ lit "\\end{displaymath}")) ]

/-- Written from the spec's words, for the refinement claim C9: process the
kinds of `kindOrder` left to right, each kind substituting every textual
occurrence of each matched span, an error aborting the run. -/
def mungeQA_spec (env : Env) (html : Str) (w : World) : Except PyErr Str × World :=
  kindOrder.foldl
    (fun acc k =>
      match acc with
      | (Except.error e, w') => (Except.error e, w')
      | (Except.ok h, w') => processMatches env k.2.2 (scanTags k.1 k.2.1 h) h w')
    (Except.ok html, w)

/-- A tool oracle where everything succeeds and the log reads back "log". -/
def toolsOk : Tools :=
  { latexExit := fun _ => 0, dvipngExit := fun _ => 0,
    copyOk := fun _ => true, logRead := fun _ => some (lit "log") }

/-- A base environment: all tools succeed, empty preamble/postamble,
media directory "M", scratch directory "T", building enabled. -/
def env0 : Env :=
  { tools := toolsOk, mdir := lit "M", tmpPath := lit "T", build := true,
    model := { latexPre := lit "", latexPost := lit "" } }

/-- `env0` with the module-level `build` flag switched off. -/
def envNoBuild : Env := { env0 with build := false }

/-- A base world: working directory "W", no files, no events yet. -/
def w0 : World := { cwd := lit "W", files := [], events := [] }

/-- `env0` but the `latex` tool always exits 1 and the log reads back "boom". -/
def envLatexFails : Env :=
  { env0 with tools := { toolsOk with latexExit := fun _ => 1,
                                      logRead := fun _ => some (lit "boom") } }

/-- `env0` but `latex` exits 1 exactly on the wrapped source `"\na\n"` (the
tag body `a` under empty preamble/postamble); the log reads back "boom". -/
def envAB : Env :=
  { env0 with tools := { toolsOk with
      latexExit := fun s => if s = lit "\na\n" then 1 else 0,
      logRead := fun _ => some (lit "boom") } }

/-- `env0` but the copy into the media directory fails (store I/O error). -/
def envCopyFail : Env :=
  { env0 with tools := { toolsOk with copyOk := fun _ => false } }

/-! ## Helper lemmas about the embedded functions -/

/-- A deny-listed token in the wrapped source makes `_buildImg` raise
`AssertionError` at once, with the world untouched. -/
theorem buildImg_security (env : Env) (latex fname : Str) (w : World)
    (h : denyList.any (fun bad => hasSubstr (wrapLatex env.model latex) bad) = true) :
    _buildImg env latex fname w = (Except.error PyErr.assertionError, w) := by
  unfold _buildImg
  simp [h]

/-- With no deny-listed token present, `_buildImg` never raises
`AssertionError` (its failures are error fragments or the store I/O error). -/
theorem buildImg_no_assert (env : Env) (latex fname : Str) (w : World)
    (h : denyList.any (fun bad => hasSubstr (wrapLatex env.model latex) bad) = false) :
    (_buildImg env latex fname w).1 ≠ Except.error PyErr.assertionError := by
  unfold _buildImg
  simp only [h, Bool.false_eq_true, if_false]
  split
  · simp
  · split
    · simp
    · split <;> simp

/-- `_buildImg` restores the caller's working directory on every exit path. -/
theorem buildImg_cwd (env : Env) (latex fname : Str) (w : World) :
    ((_buildImg env latex fname w).2).cwd = w.cwd := by
  simp only [_buildImg]
  split
  · rfl
  · split
    · rfl
    · split
      · rfl
      · split <;> rfl

/-- `_imgLink` leaves the working directory unchanged on every path. -/
theorem imgLink_cwd (env : Env) (latex : Str) (w : World) :
    ((_imgLink env latex w).2).cwd = w.cwd := by
  simp only [_imgLink]
  split
  · rfl
  · split
    · rfl
    · have hb := buildImg_cwd env (_latexFromHtml latex)
        (lit "latex-" ++ checksum (_latexFromHtml latex) ++ lit ".png") w
      split <;> rename_i heq <;> rw [heq] at hb <;> exact hb

/-- On a cache hit — the resolved filename exists relative to the current
working directory — `_imgLink` returns the image link at once, with no state
change (in particular no deny-list check and no build). -/
theorem imgLink_hit (env : Env) (latex : Str) (w : World)
    (h : (w.cwd, fnameOf latex) ∈ w.files) :
    _imgLink env latex w = (Except.ok (linkOf latex), w) := by
  simp only [fnameOf] at h
  simp only [_imgLink, linkOf, fnameOf]
  rw [if_pos h]

/-- On a cache miss with the module-level `build` flag off, `_imgLink`
returns `"[latex]%s[/latex]" % latex` verbatim, with no state change. -/
theorem imgLink_noBuild (env : Env) (latex : Str) (w : World)
    (hb : env.build = false) (h : (w.cwd, fnameOf latex) ∉ w.files) :
    _imgLink env latex w = (Except.ok (lit "[latex]" ++ latex ++ lit "[/latex]"), w) := by
  simp only [fnameOf] at h
  simp only [_imgLink]
  rw [if_neg h, if_pos hb]

/-- On a cache miss with building enabled and a deny-listed token in the
wrapped source, `_imgLink` propagates the `AssertionError`, the world
untouched. -/
theorem imgLink_security (env : Env) (latex : Str) (w : World)
    (h : (w.cwd, fnameOf latex) ∉ w.files) (hb : env.build = true)
    (hs : denyList.any
      (fun bad => hasSubstr (wrapLatex env.model (_latexFromHtml latex)) bad) = true) :
    _imgLink env latex w = (Except.error PyErr.assertionError, w) := by
  simp only [fnameOf] at h
  simp only [_imgLink]
  rw [if_neg h, if_neg (by simp [hb]), buildImg_security env _ _ w hs]

/-- A non-zero `latex` exit with a readable non-empty log makes `_buildImg`
return the "Error executing latex." fragment with the escaped log, the
working directory restored, and only the `latex` invocation recorded. -/
theorem buildImg_latexFail (env : Env) (latex fname : Str) (w : World) (lg : Str)
    (hs : denyList.any (fun bad => hasSubstr (wrapLatex env.model latex) bad) = false)
    (hl : env.tools.latexExit (wrapLatex env.model latex) ≠ 0)
    (hr : env.tools.logRead (wrapLatex env.model latex) = some lg)
    (hne : lg.isEmpty = false) :
    _buildImg env latex fname w =
      (Except.ok (some (lit "Error executing latex.<br><small><pre>" ++
          (cgiEscape lg ++ lit "</pre></small>"))),
       { w with events := w.events ++ [Event.runLatex] }) := by
  simp only [_buildImg, _errMsg]
  rw [if_neg (by simp [hs]), if_pos hl, hr]
  simp only [hne, Bool.false_eq_true, if_false]
  exact rfl

/-- A non-zero `dvipng` exit (after a clean `latex` run) makes `_buildImg`
return the "Error executing dvipng." fragment with the escaped log, the
working directory restored, `latex` and `dvipng` both recorded. -/
theorem buildImg_dvipngFail (env : Env) (latex fname : Str) (w : World) (lg : Str)
    (hs : denyList.any (fun bad => hasSubstr (wrapLatex env.model latex) bad) = false)
    (hl : env.tools.latexExit (wrapLatex env.model latex) = 0)
    (hd : env.tools.dvipngExit (wrapLatex env.model latex) ≠ 0)
    (hr : env.tools.logRead (wrapLatex env.model latex) = some lg)
    (hne : lg.isEmpty = false) :
    _buildImg env latex fname w =
      (Except.ok (some (lit "Error executing dvipng.<br><small><pre>" ++
          (cgiEscape lg ++ lit "</pre></small>"))),
       { w with events := w.events ++ [Event.runLatex, Event.runDvipng] }) := by
  simp only [_buildImg, _errMsg]
  rw [if_neg (by simp [hs]), if_neg (by simp [hl]), if_pos hd, hr]
  simp only [hne, Bool.false_eq_true, if_false, List.append_assoc,
    List.cons_append, List.nil_append]
  exact rfl

/-- An exception from `_imgLink` on the first match aborts the whole
replace-loop: it is not turned into an inline fragment and no further tag is
processed. -/
theorem processMatches_err (env : Env) (wrapB : Str → Str) (m : TagMatch)
    (ms : List TagMatch) (html : Str) (w : World) (e : PyErr) (w1 : World)
    (h : _imgLink env (wrapB m.inner) w = (Except.error e, w1)) :
    processMatches env wrapB (m :: ms) html w = (Except.error e, w1) := by
  simp only [processMatches]
  rw [h]

/-- A normal `_imgLink` result on the first match substitutes every textual
occurrence of the matched span and the loop continues with the rest. -/
theorem processMatches_ok (env : Env) (wrapB : Str → Str) (m : TagMatch)
    (ms : List TagMatch) (html : Str) (w : World) (res : Str) (w1 : World)
    (h : _imgLink env (wrapB m.inner) w = (Except.ok res, w1)) :
    processMatches env wrapB (m :: ms) html w =
      processMatches env wrapB ms (replaceAll html m.full res) w1 := by
  simp only [processMatches]
  rw [h]

/-- A run of letters followed by `;` is taken whole by the entity regex. -/
theorem takeWhile_letters (name : Str) (h : name.all isAsciiLetter = true) :
    List.takeWhile isAsciiLetter (name ++ [';']) = name := by
  induction name with
  | nil => rfl
  | cons a as ih =>
    simp only [List.all_cons, Bool.and_eq_true] at h
    simp [List.takeWhile_cons, h.1, ih h.2]

/-- Companion to `takeWhile_letters` for the remainder. -/
theorem dropWhile_letters (name : Str) (h : name.all isAsciiLetter = true) :
    List.dropWhile isAsciiLetter (name ++ [';']) = [';'] := by
  induction name with
  | nil => rfl
  | cons a as ih =>
    simp only [List.all_cons, Bool.and_eq_true] at h
    simp [List.dropWhile_cons, h.1, ih h.2]

/-- The entity scanner yields nothing on an empty string, at any fuel. -/
theorem entMatchesF_nil (fuel : Nat) : entMatchesF fuel [] = [] := by
  cases fuel <;> rfl

/-- A string that is exactly `&name;` with a non-empty all-letter name is
matched once, whole, by the entity regex. -/
theorem entMatches_entity (name : Str) (h1 : name ≠ [])
    (h2 : name.all isAsciiLetter = true) :
    entMatches ('&' :: (name ++ [';'])) = [('&' :: (name ++ [';']), name)] := by
  have ht := takeWhile_letters name h2
  have hd := dropWhile_letters name h2
  simp only [entMatches, List.length_cons, entMatchesF, ht, hd]
  simp [h1, entMatchesF_nil]

/-- Matching a whole string against itself (`s.replace(s, r)` on `s`). -/
theorem startsWith_refl (s : Str) : startsWith s s = true := by
  induction s with
  | nil => rfl
  | cons a as ih => simp [startsWith, ih]

/-- `replaceAll` on an empty subject is empty, at any fuel. -/
theorem replaceAllF_nilS (fuel : Nat) (t r : Str) : replaceAllF fuel [] t r = [] := by
  cases fuel <;> rfl

/-- Replacing a whole non-empty string by `r` yields `r`. -/
theorem replaceAll_self (c : Char) (cs r : Str) :
    replaceAll (c :: cs) (c :: cs) r = r := by
  show replaceAllF (c :: cs).length (c :: cs) (c :: cs) r = r
  simp [replaceAllF, startsWith_refl, List.drop_length, replaceAllF_nilS]

/-- A recognised entity standing alone is replaced by its table value. -/
theorem entSub_known (name val : Str) (h1 : name ≠ [])
    (h2 : name.all isAsciiLetter = true)
    (h3 : List.lookup name entitydefs = some val) :
    entSub ('&' :: (name ++ [';'])) = val := by
  unfold entSub
  rw [entMatches_entity name h1 h2]
  simp [h3, replaceAll_self]

/-- An unrecognised entity standing alone is left unchanged. -/
theorem entSub_unknown (name : Str) (h1 : name ≠ [])
    (h2 : name.all isAsciiLetter = true)
    (h3 : List.lookup name entitydefs = none) :
    entSub ('&' :: (name ++ [';'])) = '&' :: (name ++ [';']) := by
  unfold entSub
  rw [entMatches_entity name h1 h2]
  simp [h3]

/-- The lazy body of a tag match has at least one character. -/
theorem findBody_inner_ne (close : Str) :
    ∀ (s b r : Str), findBody close s = some (b, r) → b ≠ [] := by
  intro s
  induction s with
  | nil => intro b r h; simp [findBody] at h
  | cons c cs ih =>
    intro b r h
    simp only [findBody] at h
    split at h
    · cases h
      simp
    · split at h
      · rename_i b' r' heq
        cases h
        simp
      · cases h

/-- Every match produced by the tag scanner has a non-empty body, at any
fuel: the `(.+?)` group requires at least one character. -/
theorem scanTagsF_inner_ne (opn close : Str) :
    ∀ (fuel : Nat) (s : Str) (m : TagMatch),
      m ∈ scanTagsF fuel opn close s → m.inner ≠ [] := by
  intro fuel
  induction fuel with
  | zero => intro s m h; simp [scanTagsF] at h
  | succ n ih =>
    intro s m h
    cases s with
    | nil => simp [scanTagsF] at h
    | cons c cs =>
      simp only [scanTagsF] at h
      split at h
      · split at h
        · rename_i b r heq
          rcases List.mem_cons.mp h with h1 | h2
          · rw [h1]
            exact findBody_inner_ne close _ b r heq
          · exact ih r m h2
        · exact ih cs m h
      · exact ih cs m h

/-- The source rewriter agrees with the spec-side rewriter everywhere. -/
theorem mungeQA_eq_spec_aux (env : Env) (html : Str) (w : World) :
    mungeQA env html w = mungeQA_spec env html w := by
  unfold mungeQA mungeQA_spec kindOrder
  simp only [List.foldl_cons, List.foldl_nil]
  rcases h1 : processMatches env (fun b => b)
      (scanTags (lit "[latex]") (lit "[/latex]") html) html w with ⟨r1, w1⟩
  cases r1 with
  | error e => rfl
  | ok hh1 =>
    rcases h2 : processMatches env (fun b => '$' :: (b ++ ['$']))
        (scanTags (lit "[$]") (lit "[/$]") hh1) hh1 w1 with ⟨r2, w2⟩
    cases r2 with
    | error e => rfl
    | ok hh2 => rfl

/-! ## The claims -/

/-- C1, counterexample: two inputs whose fully wrapped byte sequences are
identical (`a\nb\nc\nd` both times) resolve to different cache filenames, and
the filename is not the fixed prefix plus the hash of the wrapped bytes — the
hash is taken of the normalised source before the preamble/postamble are
added. -/
theorem claim1_counterexample :
    wrapLatex { latexPre := lit "a", latexPost := lit "d" } (_latexFromHtml (lit "b\nc"))
      = wrapLatex { latexPre := lit "a\nb", latexPost := lit "d" } (_latexFromHtml (lit "c"))
    ∧ fnameOf (lit "b\nc") ≠ fnameOf (lit "c")
    ∧ fnameOf (lit "b\nc") ≠
        lit "latex-" ++ (checksum (wrapLatex { latexPre := lit "a", latexPost := lit "d" }
          (_latexFromHtml (lit "b\nc"))) ++ lit ".png") :=
  ⟨rfl, by decide, by decide⟩

/-- C1, amended: the cache key is the normalised source before wrapping —
equal normalised sources always resolve to the same filename
`latex-<checksum(normalised)>.png`, and a cache hit on that filename resolves
to its image link. -/
theorem claim1_amended :
    (∀ l1 l2 : Str, _latexFromHtml l1 = _latexFromHtml l2 → fnameOf l1 = fnameOf l2)
    ∧ (∀ (env : Env) (latex : Str) (w : World),
        (w.cwd, fnameOf latex) ∈ w.files →
        _imgLink env latex w = (Except.ok (linkOf latex), w)) := by
  constructor
  · intro l1 l2 h
    simp [fnameOf, h]
  · exact imgLink_hit

/-- C1, witness: `x&lt;y` and `x<y` normalise alike and share a filename; a
hit on the filename of `x` yields its link. -/
theorem claim1_witness :
    fnameOf (lit "x&lt;y") = fnameOf (lit "x<y")
    ∧ _imgLink env0 (lit "x")
        { cwd := lit "W", files := [(lit "W", lit "latex-120-.png")], events := [] }
      = (Except.ok (linkOf (lit "x")),
         { cwd := lit "W", files := [(lit "W", lit "latex-120-.png")], events := [] }) :=
  ⟨claim1_amended.1 (lit "x&lt;y") (lit "x<y") (by decide),
   claim1_amended.2 env0 (lit "x")
     { cwd := lit "W", files := [(lit "W", lit "latex-120-.png")], events := [] }
     (by decide)⟩

/-- C2: a deny-listed token anywhere in the wrapped source makes the build
fail at once with the fatal `AssertionError` — no external tool is invoked
and the world is untouched; an `_imgLink` exception aborts the whole
replace-loop instead of becoming an inline fragment; and a token-free wrapped
source never raises that failure. -/
theorem claim2_security :
    (∀ (env : Env) (latex fname : Str) (w : World),
       (∃ b ∈ denyList, hasSubstr (wrapLatex env.model latex) b = true) →
       _buildImg env latex fname w = (Except.error PyErr.assertionError, w))
    ∧ (∀ (env : Env) (latex fname : Str) (w : World),
       (∀ b ∈ denyList, hasSubstr (wrapLatex env.model latex) b = false) →
       (_buildImg env latex fname w).1 ≠ Except.error PyErr.assertionError)
    ∧ (∀ (env : Env) (wrapB : Str → Str) (m : TagMatch) (ms : List TagMatch)
         (html : Str) (w w1 : World) (e : PyErr),
       _imgLink env (wrapB m.inner) w = (Except.error e, w1) →
       processMatches env wrapB (m :: ms) html w = (Except.error e, w1)) := by
  refine ⟨?_, ?_, ?_⟩
  · intro env latex fname w h
    exact buildImg_security env latex fname w (List.any_eq_true.mpr h)
  · intro env latex fname w h
    refine buildImg_no_assert env latex fname w ?_
    rw [List.any_eq_false]
    intro b hb
    simp [h b hb]
  · intro env wrapB m ms html w w1 e h
    exact processMatches_err env wrapB m ms html w e w1 h

/-- C2, witness: `\write18` content aborts with the world untouched; plain
content does not; the abort propagates out of the loop. -/
theorem claim2_witness :
    _buildImg env0 (lit "\\write18 x") (lit "f.png") w0
      = (Except.error PyErr.assertionError, w0)
    ∧ (_buildImg env0 (lit "E=mc^2") (lit "f.png") w0).1
        ≠ Except.error PyErr.assertionError
    ∧ processMatches env0 (fun b => b)
        ({ full := lit "[latex]\\write x[/latex]", inner := lit "\\write x" } :: [])
        (lit "h") w0
      = (Except.error PyErr.assertionError, w0) :=
  ⟨claim2_security.1 env0 (lit "\\write18 x") (lit "f.png") w0 (by decide),
   claim2_security.2.1 env0 (lit "E=mc^2") (lit "f.png") w0 (by decide),
   claim2_security.2.2 env0 (fun b => b)
     { full := lit "[latex]\\write x[/latex]", inner := lit "\\write x" } []
     (lit "h") w0 w0 PyErr.assertionError rfl⟩

/-- C3, counterexample: a tag whose wrapped source contains the deny-listed
`\write` is nevertheless resolved to its image link when the rendered file is
already cached — the deny-list check runs after, not before, the cache
lookup. -/
theorem claim3_counterexample :
    (∃ b ∈ denyList,
       hasSubstr (wrapLatex env0.model (_latexFromHtml (lit "\\write x"))) b = true)
    ∧ _imgLink env0 (lit "\\write x")
        { cwd := lit "W", files := [(lit "W", fnameOf (lit "\\write x"))], events := [] }
      = (Except.ok (linkOf (lit "\\write x")),
         { cwd := lit "W", files := [(lit "W", fnameOf (lit "\\write x"))], events := [] }) :=
  ⟨by decide, rfl⟩

/-- C3, amended: the deny-list check happens only inside the build step — a
cache hit returns the image link with no check at all, while on a miss with
building enabled a deny-listed wrapped source is rejected before any tool
runs, the world untouched. -/
theorem claim3_amended :
    (∀ (env : Env) (latex : Str) (w : World),
       (w.cwd, fnameOf latex) ∈ w.files →
       _imgLink env latex w = (Except.ok (linkOf latex), w))
    ∧ (∀ (env : Env) (latex : Str) (w : World),
       (w.cwd, fnameOf latex) ∉ w.files → env.build = true →
       (∃ b ∈ denyList,
          hasSubstr (wrapLatex env.model (_latexFromHtml latex)) b = true) →
       _imgLink env latex w = (Except.error PyErr.assertionError, w)) := by
  constructor
  · exact imgLink_hit
  · intro env latex w h hb hs
    exact imgLink_security env latex w h hb (List.any_eq_true.mpr hs)

/-- C3, witness: the hit path and the miss-with-token path at concrete
inputs. -/
theorem claim3_witness :
    _imgLink env0 (lit "ok")
        { cwd := lit "W", files := [(lit "W", fnameOf (lit "ok"))], events := [] }
      = (Except.ok (linkOf (lit "ok")),
         { cwd := lit "W", files := [(lit "W", fnameOf (lit "ok"))], events := [] })
    ∧ _imgLink env0 (lit "\\def x") w0 = (Except.error PyErr.assertionError, w0) :=
  ⟨claim3_amended.1 env0 (lit "ok")
     { cwd := lit "W", files := [(lit "W", fnameOf (lit "ok"))], events := [] } (by decide),
   claim3_amended.2 env0 (lit "\\def x") w0 (by decide) rfl (by decide)⟩

/-- C4, counterexample: with building disabled and a cold cache, an
expression tag `[$]x[/$]` is rewritten to `[latex]$x$[/latex]` — not the
original tag text byte-for-byte. -/
theorem claim4_counterexample :
    mungeQA envNoBuild (lit "[$]x[/$]") w0
      = (Except.ok (lit "[latex]$x$[/latex]"), w0)
    ∧ lit "[latex]$x$[/latex]" ≠ lit "[$]x[/$]" :=
  ⟨rfl, by decide⟩

/-- C4, amended: with building disabled, a cache miss returns
`"[latex]" + wrapped body + "[/latex]"` with the world untouched; this equals
the original tag text only for a standard tag written with lowercase
delimiters, as in the second conjunct. -/
theorem claim4_amended :
    (∀ (env : Env) (latex : Str) (w : World),
       env.build = false → (w.cwd, fnameOf latex) ∉ w.files →
       _imgLink env latex w
         = (Except.ok (lit "[latex]" ++ latex ++ lit "[/latex]"), w))
    ∧ mungeQA envNoBuild (lit "[latex]y[/latex]") w0
      = (Except.ok (lit "[latex]y[/latex]"), w0) :=
  ⟨fun env latex w hb h => imgLink_noBuild env latex w hb h, rfl⟩

/-- C4, witness: the no-build miss path at a concrete input. -/
theorem claim4_witness :
    _imgLink envNoBuild (lit "$z$") w0
      = (Except.ok (lit "[latex]" ++ lit "$z$" ++ lit "[/latex]"), w0) :=
  claim4_amended.1 envNoBuild (lit "$z$") w0 rfl (by decide)

/-- C5, counterexample: the rendered file for `x` exists in the media
directory `M`, yet with the working directory at `W` the tag is treated as a
cache miss (here surfacing as the no-build text rather than the link) — the
hit test consults the working directory, not the media store. -/
theorem claim5_counterexample :
    (envNoBuild.mdir, fnameOf (lit "x")) ∈
        [((lit "M" : Str), (lit "latex-120-.png" : Str))]
    ∧ mungeQA envNoBuild (lit "[latex]x[/latex]")
        { cwd := lit "W", files := [(lit "M", lit "latex-120-.png")], events := [] }
      = (Except.ok (lit "[latex]x[/latex]"),
         { cwd := lit "W", files := [(lit "M", lit "latex-120-.png")], events := [] })
    ∧ lit "[latex]x[/latex]" ≠ linkOf (lit "x") :=
  ⟨by decide, rfl, by decide⟩

/-- C5, amended: the cache-hit test is existence of the resolved filename
relative to the current working directory; it coincides with a media-store
check exactly when the working directory is the media directory. -/
theorem claim5_amended :
    (∀ (env : Env) (latex : Str) (w : World),
       (w.cwd, fnameOf latex) ∈ w.files →
       _imgLink env latex w = (Except.ok (linkOf latex), w))
    ∧ (∀ (env : Env) (latex : Str) (w : World), w.cwd = env.mdir →
       (((env.mdir, fnameOf latex) ∈ w.files) ↔ (w.cwd, fnameOf latex) ∈ w.files)) := by
  constructor
  · exact imgLink_hit
  · intro env latex w h
    rw [h]

/-- C5, witness: the hit path, and the coincidence when cwd is the media
directory, at concrete inputs. -/
theorem claim5_witness :
    _imgLink env0 (lit "v")
        { cwd := lit "W", files := [(lit "W", fnameOf (lit "v"))], events := [] }
      = (Except.ok (linkOf (lit "v")),
         { cwd := lit "W", files := [(lit "W", fnameOf (lit "v"))], events := [] })
    ∧ (((env0.mdir, fnameOf (lit "v")) ∈
          ({ cwd := lit "M", files := [], events := [] } : World).files) ↔
        ((lit "M", fnameOf (lit "v")) ∈
          ({ cwd := lit "M", files := [], events := [] } : World).files)) :=
  ⟨claim5_amended.1 env0 (lit "v")
     { cwd := lit "W", files := [(lit "W", fnameOf (lit "v"))], events := [] } (by decide),
   claim5_amended.2 env0 (lit "v") { cwd := lit "M", files := [], events := [] } rfl⟩

/-- C6, counterexample: when the typeset tool fails, the fragment starts with
"Error executing latex." — the stage's tool name — not with the literal
"Error executing typeset.". -/
theorem claim6_counterexample :
    mungeQA envLatexFails (lit "[latex]a[/latex]") w0
      = (Except.ok (lit "Error executing latex.<br><small><pre>boom</pre></small>"),
         { w0 with events := [Event.runLatex] })
    ∧ startsWith (lit "Error executing typeset.")
        (lit "Error executing latex.<br><small><pre>boom</pre></small>") = false :=
  ⟨rfl, by decide⟩

/-- C6, amended: a non-zero typeset exit replaces only that tag's span with a
fragment starting with "Error executing latex." (the tool's name; the spec
calls this stage "typeset") followed by the HTML-escaped captured log; a
normal per-tag result lets the loop continue with the remaining tags; and in
a two-tag content whose first tag fails to typeset, the second tag is still
rendered to its image link. -/
theorem claim6_amended :
    (∀ (env : Env) (latex fname : Str) (w : World) (lg : Str),
       denyList.any (fun bad => hasSubstr (wrapLatex env.model latex) bad) = false →
       env.tools.latexExit (wrapLatex env.model latex) ≠ 0 →
       env.tools.logRead (wrapLatex env.model latex) = some lg →
       lg.isEmpty = false →
       _buildImg env latex fname w =
         (Except.ok (some (lit "Error executing latex.<br><small><pre>" ++
             (cgiEscape lg ++ lit "</pre></small>"))),
          { w with events := w.events ++ [Event.runLatex] }))
    ∧ (∀ (env : Env) (wrapB : Str → Str) (m : TagMatch) (ms : List TagMatch)
         (html : Str) (w : World) (res : Str) (w1 : World),
       _imgLink env (wrapB m.inner) w = (Except.ok res, w1) →
       processMatches env wrapB (m :: ms) html w =
         processMatches env wrapB ms (replaceAll html m.full res) w1)
    ∧ mungeQA envAB (lit "[latex]a[/latex][latex]b[/latex]") w0
      = (Except.ok
           (lit "Error executing latex.<br><small><pre>boom</pre></small><img src=\"latex-98-.png\">"),
         { cwd := lit "W", files := [(lit "M", lit "latex-98-.png")],
           events := [Event.runLatex, Event.runLatex, Event.runDvipng, Event.copyMedia] }) :=
  ⟨buildImg_latexFail, processMatches_ok, rfl⟩

/-- C6, witness: the failing-typeset fragment and the loop continuation at
concrete inputs. -/
theorem claim6_witness :
    _buildImg envLatexFails (lit "a") (lit "f.png") w0
      = (Except.ok (some (lit "Error executing latex.<br><small><pre>" ++
           (cgiEscape (lit "boom") ++ lit "</pre></small>"))),
         { w0 with events := [Event.runLatex] })
    ∧ processMatches env0 (fun b => b)
        ({ full := lit "[latex]q[/latex]", inner := lit "q" } :: [])
        (lit "[latex]q[/latex]") w0
      = processMatches env0 (fun b => b) []
          (replaceAll (lit "[latex]q[/latex]") (lit "[latex]q[/latex]") (linkOf (lit "q")))
          { cwd := lit "W", files := [(lit "M", fnameOf (lit "q"))],
            events := [Event.runLatex, Event.runDvipng, Event.copyMedia] } :=
  ⟨claim6_amended.1 envLatexFails (lit "a") (lit "f.png") w0 (lit "boom")
     (by decide) (by decide) rfl rfl,
   claim6_amended.2.1 env0 (fun b => b)
     { full := lit "[latex]q[/latex]", inner := lit "q" } []
     (lit "[latex]q[/latex]") w0 (linkOf (lit "q"))
     { cwd := lit "W", files := [(lit "M", fnameOf (lit "q"))],
       events := [Event.runLatex, Event.runDvipng, Event.copyMedia] } rfl⟩

/-- C7: on every exit path of the build — the deny-list abort, a typeset
failure, a rasterize failure, a copy error raised after the directory
switch, and success — and on every path of `_imgLink` around it, the
caller's working directory is unchanged. -/
theorem claim7_cwd :
    (∀ (env : Env) (latex fname : Str) (w : World),
       ((_buildImg env latex fname w).2).cwd = w.cwd)
    ∧ (∀ (env : Env) (latex : Str) (w : World),
       ((_imgLink env latex w).2).cwd = w.cwd) :=
  ⟨buildImg_cwd, imgLink_cwd⟩

/-- C8, counterexample: `alpha` is a recognised entity of the Python 2 table,
but normalising `&alpha;` yields the six-character numeric reference
`&#945;`, not the literal character `α`. -/
theorem claim8_counterexample :
    List.lookup (lit "alpha") entitydefs = some (lit "&#945;")
    ∧ _latexFromHtml (lit "&alpha;") = lit "&#945;"
    ∧ lit "&#945;" ≠ lit "α" :=
  ⟨rfl, rfl, by decide⟩

/-- C8, amended: a recognised entity reference is replaced by the table's
replacement text — the literal character exactly for entities whose
codepoint fits Latin-1, a numeric character reference otherwise — and an
entity reference whose name is not in the table is left unchanged. -/
theorem claim8_amended :
    (∀ p ∈ entitydefs, entSub ('&' :: (p.1 ++ [';'])) = p.2)
    ∧ (∀ name : Str, name ≠ [] → name.all isAsciiLetter = true →
       List.lookup name entitydefs = none →
       entSub ('&' :: (name ++ [';'])) = '&' :: (name ++ [';'])) :=
  ⟨by decide, entSub_unknown⟩

/-- C8, witness: the known entity `amp` is replaced, the unknown `foo` is
kept. -/
theorem claim8_witness :
    entSub ('&' :: (lit "amp" ++ [';'])) = lit "&"
    ∧ entSub ('&' :: (lit "foo" ++ [';'])) = '&' :: (lit "foo" ++ [';']) :=
  ⟨claim8_amended.1 (lit "amp", lit "&") (by decide),
   claim8_amended.2 (lit "foo") (by decide) (by decide) rfl⟩

/-- C9: the rewriter equals the spec-side rewriter that processes the kinds
in the fixed priority order standard (Raw), expression (InlineExpr), math
(DisplayMath); and substitution is by value — a content containing the same
expression tag twice has both occurrences replaced together. -/
theorem claim9_order :
    (∀ (env : Env) (html : Str) (w : World),
       mungeQA env html w = mungeQA_spec env html w)
    ∧ mungeQA envNoBuild (lit "a[$]x[/$]b[$]x[/$]c") w0
      = (Except.ok (lit "a[latex]$x$[/latex]b[latex]$x$[/latex]c"), w0) :=
  ⟨mungeQA_eq_spec_aux, rfl⟩

/-- C10: every tag match has a non-empty body — the `(.+?)` group needs at
least one character — so the empty-body forms `[latex][/latex]`, `[$][/$]`
and `[$$][/$$]` are returned unchanged with no state change (no build, no
events). -/
theorem claim10_emptyBody :
    (∀ (opn close s : Str) (m : TagMatch), m ∈ scanTags opn close s → m.inner ≠ [])
    ∧ mungeQA env0 (lit "[latex][/latex]") w0 = (Except.ok (lit "[latex][/latex]"), w0)
    ∧ mungeQA env0 (lit "[$][/$]") w0 = (Except.ok (lit "[$][/$]"), w0)
    ∧ mungeQA env0 (lit "[$$][/$$]") w0 = (Except.ok (lit "[$$][/$$]"), w0) :=
  ⟨fun opn close s m h => scanTagsF_inner_ne opn close s.length s m h, rfl, rfl, rfl⟩

/-- C10, witness: the scanner's one match on `[latex]x[/latex]` has the
non-empty body `x`. -/
theorem claim10_witness :
    ({ full := lit "[latex]x[/latex]", inner := lit "x" } : TagMatch).inner ≠ [] :=
  claim10_emptyBody.1 (lit "[latex]") (lit "[/latex]") (lit "[latex]x[/latex]")
    { full := lit "[latex]x[/latex]", inner := lit "x" } (by decide)

end AnkiLatex

